import Mathlib

/-!
Verification of the hardware-interop layer of philipl/mpv (Vulkan display
backend, CUDA interop hwdec, VA-API interop hwdec).  Each C function the
claims touch is shallowly embedded as an executable Lean function over an
explicit environment recording the results returned by the vendor driver
APIs (Vulkan, CUDA, VA-API, libavutil).  Machine `int`s holding indices are
modelled as `Int`; enumeration counts reported by the drivers as `Nat`;
C strings as `List Char` (the bytes before the NUL terminator); a C call
that the code treats as fallible is a `Bool` (or a per-index `Nat → Bool`)
field in the environment.  Paths on which the C program performs a read
through an invalid pointer (undefined behaviour) are represented by
`Option.none` results.
-/

set_option autoImplicit false

namespace ContextDisplay

/-! ### video/out/vulkan/context_display.c — display-spec parsing

`parse_display_spec` works on NUL-terminated C strings with `strchr` and
`atoi`.  We model the string as the list of its characters (without the
terminator).  `strchrAfter c cs` returns the suffix strictly after the first
occurrence of `c`, i.e. the list at pointer `p + 1` where `p = strchr(cs, c)`,
or `none` when `strchr` returns NULL. -/

def strchrAfter (c : Char) : List Char → Option (List Char)
  | [] => none
  | x :: xs => if x = c then some xs else strchrAfter c xs

/-- Number of occurrences of the separator character in the string. -/
def countColons : List Char → Nat
  | [] => 0
  | c :: cs => (if c = ':' then 1 else 0) + countColons cs

/-- C `isspace` for the default locale. -/
def c_isspace (c : Char) : Bool :=
  c = ' ' || c = Char.ofNat 9 || c = Char.ofNat 10 || c = Char.ofNat 11 ||
  c = Char.ofNat 12 || c = Char.ofNat 13

/-- Digit-accumulation loop of C `atoi`: consume leading decimal digits. -/
def atoiDigits : List Char → Nat → Nat
  | [], acc => acc
  | c :: cs, acc =>
    if c.isDigit then atoiDigits cs (acc * 10 + (c.toNat - 48)) else acc

/-- C `atoi`: skip whitespace, optional sign, then leading digits (0 when
there are none).  Overflow is ignored: the display specs in question are
tiny indices. -/
def atoi (cs : List Char) : Int :=
  match cs.dropWhile c_isspace with
  | '-' :: rest => -(atoiDigits rest 0 : Int)
  | '+' :: rest => (atoiDigits rest 0 : Int)
  | rest => (atoiDigits rest 0 : Int)

/-- `parse_display_spec` (context_display.c, non-NULL `display_spec`): find
the first `:`; if present, `atoi` the whole string for the display index,
look for a second `:` after it, and — crucially — dereference
`plane_ptr + 1` *unconditionally*.  When no second `:` exists, `plane_ptr`
is NULL and the C program reads address 1: that undefined behaviour is
modelled as `none`.  Otherwise the result is
`(ret, parsed_display, parsed_mode, parsed_plane)` exactly as the four C
variables are left at `finish`. -/
def parse_display_spec (cs : List Char) : Option (Bool × Int × Int × Int) :=
  match strchrAfter ':' cs with
  | none => some (false, 0, 0, 0)
  | some afterFirst =>
    let parsed_display := atoi cs
    match strchrAfter ':' afterFirst with
    | none => none
    | some afterSecond =>
      let parsed_mode := atoi afterFirst
      let parsed_plane := if afterSecond ≠ [] then atoi afterSecond else 0
      some (true, parsed_display, parsed_mode, parsed_plane)

/-- Result of an option validator (`m_option.h` constants kept symbolic). -/
inductive ValidateResult where
  | optExit
  | optInvalid
  | accepted
  deriving DecidableEq, Repr

/-- `display_validate_spec`: "help" prints the display info and returns
`M_OPT_EXIT`; otherwise the param is accepted (return 1) exactly when
`parse_display_spec` returns true, else rejected with `M_OPT_INVALID`.
The undefined-behaviour case of the parser propagates as `none`. -/
def display_validate_spec (param : List Char) : Option ValidateResult :=
  if param = "help".data then some ValidateResult.optExit
  else
    match parse_display_spec param with
    | none => none
    | some (ret, _, _, _) =>
      if ret then some ValidateResult.accepted else some ValidateResult.optInvalid

/-- Modelled from the spec claim C2 for comparison: the language the claim
says is accepted — strings `D:M:P` where each of D, M, P is an integer
index (a non-empty run of decimal digits). -/
def claimedSpecForm (cs : List Char) : Bool :=
  match cs.splitOn ':' with
  | [d, m, p] =>
    !d.isEmpty && !m.isEmpty && !p.isEmpty &&
    d.all Char.isDigit && m.all Char.isDigit && p.all Char.isDigit
  | _ => false

/-! ### walk_display_properties (selector path)

The environment records what the Vulkan driver reports for the chosen
physical device: the display count, the plane count, each display's mode
count and mode properties, and which displays each plane lists as
supported.  Following the success-path semantics of the C file, every
`vkGet*` enumeration call is assumed to return `VK_SUCCESS` with these
values, and each plane's supported-display array is the null-terminated
list described by `plane_supports` (the uninitialised-entry corner for a
plane supporting zero displays is idealised as an empty list).
`VkDisplayModePropertiesKHR` contents are abstracted to a `Nat` tag. -/

structure DisplayEnv where
  num_displays : Nat
  num_planes : Nat
  num_modes : Nat → Nat
  mode_props : Nat → Nat → Nat
  plane_supports : Nat → Nat → Bool

/-- The three indices of `struct mode_selector` (C `int`s, so `Int`). -/
structure ModeSelector where
  display_idx : Int
  mode_idx : Int
  plane_idx : Int

/-- The `for (j = 0; j < num_displays; j++)` loop of
`walk_display_properties` with a non-NULL selector, at display `j` with
`fuel` iterations remaining and `out` the current value of
`selector->out_mode_props`.  Only `j = display_idx` runs the body; a
display with zero modes hits `continue`; a too-large mode index or a plane
mismatch hits `goto done` with `ret` still false; falling off the end of
the loop reaches `ret = true`. -/
def walk_displays (env : DisplayEnv) (sel : ModeSelector) :
    Nat → Nat → Option Nat → Bool × Option Nat
  | _, 0, out => (true, out)
  | j, fuel + 1, out =>
    if sel.display_idx ≠ (j : Int) then walk_displays env sel (j + 1) fuel out
    else
      let nm := env.num_modes j
      if nm = 0 then walk_displays env sel (j + 1) fuel out
      else if sel.mode_idx + 1 > (nm : Int) then (false, out)
      else
        let out1 :=
          if 0 ≤ sel.mode_idx ∧ sel.mode_idx < (nm : Int) then
            some (env.mode_props j sel.mode_idx.toNat)
          else out
        let found : Int :=
          if 0 ≤ sel.plane_idx ∧ sel.plane_idx < (env.num_planes : Int) ∧
              env.plane_supports sel.plane_idx.toNat j then
            sel.plane_idx
          else -1
        if sel.plane_idx ≠ found then (false, out1)
        else walk_displays env sel (j + 1) fuel out1

/-- `walk_display_properties` with a non-NULL selector: the early count and
index checks, then the display loop.  Returns the C `ret` together with the
final `selector->out_mode_props` (initially NULL, i.e. `none`). -/
def walk_display_properties (env : DisplayEnv) (sel : ModeSelector) :
    Bool × Option Nat :=
  if env.num_displays = 0 then (false, none)
  else if sel.display_idx + 1 > (env.num_displays : Int) then (false, none)
  else if env.num_planes = 0 then (false, none)
  else if sel.plane_idx + 1 > (env.num_planes : Int) then (false, none)
  else walk_displays env sel 0 env.num_displays none

end ContextDisplay

namespace CudaHwdec

/-! ### hwdec_cuda.c — cuda_init

Environment of driver/library call outcomes for `cuda_init`, with both
`HAVE_GL` and `HAVE_VULKAN` compiled in (the most general build).  The
result records the returned `int` together with the externally visible
effects the claim is about: how many CUDA contexts were created
(successful `cuCtxCreate` calls) and whether `hwdec_devices_add` ran. -/

structure CudaInitEnv where
  is_gl : Bool
  is_vk : Bool
  gl_version_ok : Bool
  vk_has_ext_external_memory_export : Bool
  load_functions_ok : Bool
  has_cuImportExternalMemory : Bool
  cuInit_ok : Bool
  cuGLGetDevices_ok : Bool
  ctxCreate_display_ok : Bool
  decode_dev_idx : Int
  cuDeviceGet_ok : Bool
  decode_dev_differs : Bool
  popCurrent_ok : Bool
  ctxCreate_decode_ok : Bool
  cuDeviceGetCount_ok : Bool
  vk_device_found : Bool
  hwdevice_alloc_ok : Bool
  hwdevice_init_ok : Bool

/-- Common tail of `cuda_init` after the display/decode contexts were
allocated (`ctxs` of them): libavutil device creation, the final pop, and
`hwdec_devices_add`; any failure takes `goto error` and returns -1. -/
def cuda_init_tail (e : CudaInitEnv) (ctxs : Nat) : Int × Nat × Bool :=
  if e.hwdevice_alloc_ok = false then (-1, ctxs, false)
  else if e.hwdevice_init_ok = false then (-1, ctxs, false)
  else if e.popCurrent_ok = false then (-1, ctxs, false)
  else (0, ctxs, true)

/-- `cuda_init`, straight-line translation of the C control flow. -/
def cuda_init (e : CudaInitEnv) : Int × Nat × Bool :=
  if e.is_gl && !e.gl_version_ok then (-1, 0, false)
  else if e.is_vk && !e.vk_has_ext_external_memory_export then (-1, 0, false)
  else if !e.is_gl && !e.is_vk then (-1, 0, false)
  else if e.load_functions_ok = false then (-1, 0, false)
  else if e.is_vk && !e.has_cuImportExternalMemory then (-1, 0, false)
  else if e.cuInit_ok = false then (-1, 0, false)
  else if e.is_gl then
    if e.cuGLGetDevices_ok = false then (-1, 0, false)
    else if e.ctxCreate_display_ok = false then (-1, 0, false)
    else if e.decode_dev_idx > -1 then
      if e.cuDeviceGet_ok = false then (-1, 1, false)
      else if e.decode_dev_differs then
        if e.popCurrent_ok = false then (-1, 1, false)
        else if e.ctxCreate_decode_ok = false then (-1, 1, false)
        else cuda_init_tail e 2
      else cuda_init_tail e 1
    else cuda_init_tail e 1
  else
    if e.cuDeviceGetCount_ok = false then (-1, 0, false)
    else if e.vk_device_found = false then (-1, 0, false)
    else if e.ctxCreate_display_ok = false then (-1, 0, false)
    else cuda_init_tail e 1

/-! ### hwdec_cuda.c — cuda_ebuf_init and the mapper operations -/

/-- Outcomes of the external calls made by `cuda_ebuf_init` for one plane.
`bytes_per_comp` is `format->pixel_size / format->num_components`. -/
structure EbufEnv where
  get_external_info_ok : Bool
  import_mem_ok : Bool
  bytes_per_comp : Nat
  mma_ok : Bool
  level_ok : Bool
  create_signal_ok : Bool
  import_signal_ok : Bool
  create_wait_ok : Bool
  import_wait_ok : Bool

/-- `cuda_ebuf_init` (Vulkan path): each failing step takes `goto error`
and returns false; the `switch` on the per-component byte size rejects
anything other than 1 or 2. -/
def cuda_ebuf_init (e : EbufEnv) : Bool :=
  if e.get_external_info_ok = false then false
  else if e.import_mem_ok = false then false
  else if e.bytes_per_comp ≠ 1 ∧ e.bytes_per_comp ≠ 2 then false
  else if e.mma_ok = false then false
  else if e.level_ok = false then false
  else if e.create_signal_ok = false then false
  else if e.import_signal_ok = false then false
  else if e.create_wait_ok = false then false
  else if e.import_wait_ok = false then false
  else true

/-- Environment for `mapper_init` of the CUDA hwdec. -/
structure CuMapperInitEnv where
  fmt_ok : Bool
  push_ok : Bool
  num_planes : Nat
  is_gl : Bool
  is_vk : Bool
  tex_create_ok : Nat → Bool
  gl_register_ok : Nat → Bool
  gl_map_ok : Nat → Bool
  gl_getarray_ok : Nat → Bool
  gl_unmap_ok : Nat → Bool
  ebuf : Nat → EbufEnv

/-- The plane loop of `mapper_init`, threading the C `ret` variable.  Note
the faithful translation of `ret = cuda_ebuf_init(...)`: the C `bool` is
converted to the `int` 1 or 0, and the subsequent `if (ret < 0)` is
therefore never taken. -/
def cuda_mapper_init_planes (e : CuMapperInitEnv) : Nat → Nat → Int → Int
  | _, 0, ret => ret
  | n, fuel + 1, _ =>
    if e.tex_create_ok n = false then -1
    else if e.is_gl then
      if e.gl_register_ok n = false then -1
      else if e.gl_map_ok n = false then -1
      else if e.gl_getarray_ok n = false then -1
      else if e.gl_unmap_ok n = false then -1
      else cuda_mapper_init_planes e (n + 1) fuel 0
    else if e.is_vk then
      let ret : Int := if cuda_ebuf_init (e.ebuf n) then 1 else 0
      if ret < 0 then -1 else cuda_mapper_init_planes e (n + 1) fuel ret
    else cuda_mapper_init_planes e (n + 1) fuel 0

/-- `mapper_init` of the CUDA hwdec, with the thread's CUDA context stack
modelled by its depth `d`.  Returns `(ret, final depth, number of
cuCtxPopCurrent calls)`.  A failing `cuCtxPushCurrent` leaves the stack
unchanged and the function returns before any pop; after a successful push
every path funnels through the `error:` label, which pops exactly once
(the pop of a context that was just pushed succeeds). -/
def cuda_mapper_init (e : CuMapperInitEnv) (d : Nat) : Int × Nat × Nat :=
  if e.fmt_ok = false then (-1, d, 0)
  else if e.push_ok = false then (-1, d, 0)
  else
    let dPushed := d + 1
    (cuda_mapper_init_planes e 0 e.num_planes 0, dPushed - 1, 1)

/-- Environment for `mapper_map` of the CUDA hwdec. -/
structure CuMapperMapEnv where
  push_ok : Bool
  num_planes : Nat
  is_vk : Bool
  hold_ok : Nat → Bool
  waitsem_ok : Nat → Bool
  memcpy_ok : Nat → Bool
  signalsem_ok : Nat → Bool

/-- The plane loop of `mapper_map`; a failing `ra_vk_hold` leaves `ret = 0`
(the C bool false) and takes `goto error`, the CUDA calls set -1. -/
def cuda_mapper_map_planes (e : CuMapperMapEnv) : Nat → Nat → Int → Int
  | _, 0, ret => ret
  | n, fuel + 1, _ =>
    if e.is_vk && !(e.hold_ok n) then 0
    else if e.is_vk && !(e.waitsem_ok n) then -1
    else if e.memcpy_ok n = false then -1
    else if e.is_vk && !(e.signalsem_ok n) then -1
    else cuda_mapper_map_planes e (n + 1) fuel 0

/-- `mapper_map` of the CUDA hwdec; same stack conventions as
`cuda_mapper_init`. -/
def cuda_mapper_map (e : CuMapperMapEnv) (d : Nat) : Int × Nat × Nat :=
  if e.push_ok = false then (-1, d, 0)
  else
    let dPushed := d + 1
    (cuda_mapper_map_planes e 0 e.num_planes 0, dPushed - 1, 1)

/-- Environment for `mapper_uninit` of the CUDA hwdec. -/
structure CuMapperUninitEnv where
  push_ok : Bool

/-- `mapper_uninit`: best-effort push, teardown loop (no control flow),
then one unconditional `cuCtxPopCurrent` call, which pops only when a
context is current.  Returns `(final depth, pop calls)`. -/
def cuda_mapper_uninit (e : CuMapperUninitEnv) (d : Nat) : Nat × Nat :=
  let d1 := if e.push_ok then d + 1 else d
  let d2 := if 0 < d1 then d1 - 1 else d1
  (d2, 1)

end CudaHwdec

namespace VaapiHwdec

/-! ### hwdec_vaapi (src/unnamed/part_001) — init

Environment of call outcomes for the VA-API interop driver's `init`:
which backend the `ra` is, whether a native VA display could be created,
whether `va_initialize` and its libavutil device reference succeeded,
the probing/emulation flags, and whether `determine_working_formats`
produced at least one working format. -/

structure VaInitEnv where
  is_gl : Bool
  is_pl : Bool
  display_ok : Bool
  va_init_ok : Bool
  av_device_ref_ok : Bool
  probing : Bool
  emulated : Bool
  formats_ok : Bool

/-- `init` of the VA-API interop driver: note the very first statement —
`if (ra_is_gl(hw->ra)) { ...; return -1; }`. -/
def vaapi_init (e : VaInitEnv) : Int :=
  if e.is_gl then -1
  else if e.display_ok = false then -1
  else if e.va_init_ok = false then -1
  else if e.av_device_ref_ok = false then -1
  else if e.probing && e.emulated then -1
  else if e.formats_ok = false then -1
  else 0

/-! ### hwdec_vaapi — mapper_map / mapper_unmap

The mapper's private state has four memory-object slots (`p->mem`) and
four texture slots (`mapper->tex`).  `mem n = true` means slot `n` holds
an imported `pl_vulkan_mem`; `tex n = some o` means slot `n` holds a
wrapped texture that was imported from DMA-BUF object index `o` of the
exported surface descriptor. -/

structure VaMapState where
  mem : Nat → Bool
  tex : Nat → Option Nat

/-- The all-empty mapper state (the talloc-zeroed private struct). -/
def vaEmptyState : VaMapState :=
  { mem := fun _ => false, tex := fun _ => none }

/-- `mapper_unmap`: frees and NULLs `mapper->tex[0..3]` and derefs and
zeroes `p->mem[0..3]`. -/
def va_mapper_unmap (s : VaMapState) : VaMapState :=
  { mem := fun n => if n < 4 then false else s.mem n,
    tex := fun n => if n < 4 then none else s.tex n }

/-- Environment for `mapper_map` of the VA-API hwdec: the surface export
outcome, the exported descriptor's object and layer tables, and the
per-object / per-layer outcomes of the Vulkan import calls. -/
structure VaMapEnv where
  export_ok : Bool
  fmt_ok : Bool
  num_objects : Nat
  import_ok : Nat → Bool
  num_layers : Nat
  layer_num_planes : Nat → Nat
  layer_object_index : Nat → Nat
  tex_import_ok : Nat → Bool
  wrap_ok : Nat → Bool
  fourcc_yv12 : Bool

/-- The object-import loop of `mapper_map`: import each DMA-BUF object
`i < num_objects` into `p->mem[i]`; on failure close the fd and take
`goto error` with the state as it stands. -/
def va_import_objects (e : VaMapEnv) : Nat → Nat → VaMapState → Bool × VaMapState
  | _, 0, s => (true, s)
  | i, fuel + 1, s =>
    if e.import_ok i then
      va_import_objects e (i + 1) fuel
        { s with mem := fun m => if m = i then true else s.mem m }
    else (false, s)

/-- The layer loop of `mapper_map`: a layer with more than one plane, a
failing `pl_vulkan_tex_import`, or a failing `mppl_wrap_tex` takes
`goto error`; otherwise `mapper->tex[n]` receives the texture imported
from the layer's object `layer_object_index n`. -/
def va_import_layers (e : VaMapEnv) : Nat → Nat → VaMapState → Bool × VaMapState
  | _, 0, s => (true, s)
  | n, fuel + 1, s =>
    if e.layer_num_planes n > 1 then (false, s)
    else if e.tex_import_ok n = false then (false, s)
    else if e.wrap_ok n = false then (false, s)
    else
      va_import_layers e (n + 1) fuel
        { s with tex := fun m => if m = n then some (e.layer_object_index n) else s.tex m }

/-- `mapper_map` of the VA-API hwdec: export the surface, import the
objects, import and wrap one texture per layer, and finally swap
`tex[1]`/`tex[2]` for YV12 surfaces; every failure path invokes
`mapper_unmap` and returns -1. -/
def va_mapper_map (e : VaMapEnv) : Int × VaMapState :=
  if e.export_ok = false then (-1, va_mapper_unmap vaEmptyState)
  else if e.fmt_ok = false then (-1, va_mapper_unmap vaEmptyState)
  else
    let r1 := va_import_objects e 0 e.num_objects vaEmptyState
    if r1.1 = false then (-1, va_mapper_unmap r1.2)
    else
      let r2 := va_import_layers e 0 e.num_layers r1.2
      if r2.1 = false then (-1, va_mapper_unmap r2.2)
      else
        let s := r2.2
        if e.fourcc_yv12 then
          (0, { s with tex := fun m =>
                  if m = 1 then s.tex 2 else if m = 2 then s.tex 1 else s.tex m })
        else (0, s)

/-- The mapper state with no imported memory objects and no textures in
the four slots the C arrays have. -/
def vaCleanState (s : VaMapState) : Prop :=
  s.mem 0 = false ∧ s.mem 1 = false ∧ s.mem 2 = false ∧ s.mem 3 = false ∧
  s.tex 0 = none ∧ s.tex 1 = none ∧ s.tex 2 = none ∧ s.tex 3 = none

/-- Which layer's texture ends up in slot `n` after the YV12 swap. -/
def vaSwapIdx (e : VaMapEnv) (n : Nat) : Nat :=
  if e.fourcc_yv12 then (if n = 1 then 2 else if n = 2 then 1 else n) else n

end VaapiHwdec

namespace ContextDisplay

/-! ### Theorems about the display-spec parser and validator -/

theorem strchrAfter_eq_none {cs : List Char} :
    strchrAfter ':' cs = none ↔ countColons cs = 0 := by
  induction cs with
  | nil => simp [strchrAfter, countColons]
  | cons c cs ih =>
    simp only [strchrAfter, countColons]
    by_cases h : c = ':'
    · simp [h]
    · simp [h, ih]

theorem strchrAfter_eq_some {cs rest : List Char}
    (h : strchrAfter ':' cs = some rest) :
    countColons cs = countColons rest + 1 := by
  induction cs with
  | nil => simp [strchrAfter] at h
  | cons c cs ih =>
    simp only [strchrAfter] at h
    by_cases hc : c = ':'
    · rw [if_pos hc] at h
      have : cs = rest := by exact Option.some.inj h
      subst this
      simp [countColons, hc]
      omega
    · rw [if_neg hc] at h
      simp [countColons, hc, ih h]

/-- C3: a spec string with exactly one ':' makes `parse_display_spec`
dereference `plane_ptr + 1` with `plane_ptr == NULL` — the undefined
behaviour marker of the model.  Concrete failing input: "0:0". -/
theorem parse_display_spec_one_colon_ub :
    parse_display_spec "0:0".data = none := by decide

/-- C2 counterexample: the string ":::" is not of the form D:M:P with
integer indices (and is not "help"), yet `display_validate_spec` accepts
it, refuting the claim that every string other than well-formed triples
and "help" is rejected with M_OPT_INVALID. -/
theorem display_validate_spec_accepts_garbage :
    display_validate_spec ":::".data = some ValidateResult.accepted ∧
    claimedSpecForm ":::".data = false ∧
    ":::".data ≠ "help".data := by decide

/-- C2 (amended): `display_validate_spec` returns M_OPT_EXIT for "help";
for every other string it accepts (returns 1) exactly the strings with at
least two ':' characters, regardless of what stands between them, rejects
the strings with no ':' with M_OPT_INVALID, and on strings with exactly
one ':' performs a read through the NULL-derived pointer `plane_ptr + 1`
(undefined behaviour) instead of rejecting them. -/
theorem display_validate_spec_by_colons (cs : List Char) :
    (cs = "help".data → display_validate_spec cs = some ValidateResult.optExit) ∧
    (cs ≠ "help".data →
      (countColons cs = 0 →
        display_validate_spec cs = some ValidateResult.optInvalid) ∧
      (countColons cs = 1 → display_validate_spec cs = none) ∧
      (2 ≤ countColons cs →
        display_validate_spec cs = some ValidateResult.accepted)) := by
  constructor
  · intro h
    simp [display_validate_spec, h]
  · intro hne
    cases h1 : strchrAfter ':' cs with
    | none =>
      have h0 : countColons cs = 0 := strchrAfter_eq_none.mp h1
      refine ⟨fun _ => ?_, fun hcc => by omega, fun hcc => by omega⟩
      simp [display_validate_spec, hne, parse_display_spec, h1]
    | some r1 =>
      have hc1 := strchrAfter_eq_some h1
      cases h2 : strchrAfter ':' r1 with
      | none =>
        have h0 : countColons r1 = 0 := strchrAfter_eq_none.mp h2
        refine ⟨fun hcc => by omega, fun _ => ?_, fun hcc => by omega⟩
        simp [display_validate_spec, hne, parse_display_spec, h1, h2]
      | some r2 =>
        have hc2 := strchrAfter_eq_some h2
        refine ⟨fun hcc => by omega, fun hcc => by omega, fun _ => ?_⟩
        simp [display_validate_spec, hne, parse_display_spec, h1, h2]

/-- Witness for the amended C2 theorem at the concrete inputs "0:0:0"
(the option's default value, accepted) and "nocolons" (rejected). -/
theorem display_validate_spec_by_colons_witness :
    display_validate_spec "0:0:0".data = some ValidateResult.accepted ∧
    display_validate_spec "nocolons".data = some ValidateResult.optInvalid := by
  constructor
  · exact ((display_validate_spec_by_colons "0:0:0".data).2 (by decide)).2.2 (by decide)
  · exact ((display_validate_spec_by_colons "nocolons".data).2 (by decide)).1 (by decide)

/-! ### Theorems about walk_display_properties -/

/-- Driver reporting one display that has zero modes, and one plane that
supports it. -/
def c1Env : DisplayEnv :=
  { num_displays := 1
    num_planes := 1
    num_modes := fun _ => 0
    mode_props := fun _ _ => 0
    plane_supports := fun _ _ => true }

/-- The default selector 0:0:0. -/
def c1Sel : ModeSelector := { display_idx := 0, mode_idx := 0, plane_idx := 0 }

/-- C1: when the selected display exists but reports zero modes, the
selected mode index (0) is not below the display's mode count, yet
`walk_display_properties` returns true and leaves
`selector->out_mode_props` NULL — `display_init` then dereferences that
NULL pointer.  This refutes the claimed equivalence and contradicts the
function's own documentation ("verify that it is valid and return the
matching mode properties"). -/
theorem walk_display_properties_zero_modes_bug :
    walk_display_properties c1Env c1Sel = (true, none) ∧
    ¬(c1Sel.mode_idx < ((c1Env.num_modes 0 : Nat) : Int)) := by decide

end ContextDisplay

namespace CudaHwdec

/-! ### Theorems about cuda_init and the CUDA mapper operations -/

/-- C4: with a rendering backend that is neither OpenGL nor Vulkan,
`cuda_init` returns -1 having created no CUDA context and registered no
hwdec device. -/
theorem cuda_init_requires_backend (e : CudaInitEnv)
    (hg : e.is_gl = false) (hv : e.is_vk = false) :
    cuda_init e = (-1, 0, false) := by
  simp [cuda_init, hg, hv]

/-- An environment where every external call would succeed but the
backend is neither OpenGL nor Vulkan. -/
def c4Env : CudaInitEnv :=
  { is_gl := false
    is_vk := false
    gl_version_ok := true
    vk_has_ext_external_memory_export := true
    load_functions_ok := true
    has_cuImportExternalMemory := true
    cuInit_ok := true
    cuGLGetDevices_ok := true
    ctxCreate_display_ok := true
    decode_dev_idx := -1
    cuDeviceGet_ok := true
    decode_dev_differs := false
    popCurrent_ok := true
    ctxCreate_decode_ok := true
    cuDeviceGetCount_ok := true
    vk_device_found := true
    hwdevice_alloc_ok := true
    hwdevice_init_ok := true }

/-- Witness for C4 at the concrete backend-less environment. -/
theorem cuda_init_requires_backend_witness :
    cuda_init c4Env = (-1, 0, false) :=
  cuda_init_requires_backend c4Env rfl rfl

/-- C7: the context stack discipline of the CUDA mapper operations.
`mapper_init` and `mapper_map` leave the thread's CUDA context stack at
its original depth on every path; whenever the initial `cuCtxPushCurrent`
succeeds (for `mapper_init`: and the function reached it), exactly one
`cuCtxPopCurrent` call is made before returning; `mapper_uninit` is
likewise balanced whenever its push succeeds. -/
theorem cuda_mapper_ctx_stack_balanced (eI : CuMapperInitEnv)
    (eM : CuMapperMapEnv) (eU : CuMapperUninitEnv) (d : Nat)
    (hI : eI.fmt_ok = true ∧ eI.push_ok = true)
    (hM : eM.push_ok = true) (hU : eU.push_ok = true) :
    ((cuda_mapper_init eI d).2.1 = d ∧ (cuda_mapper_init eI d).2.2 = 1) ∧
    ((cuda_mapper_map eM d).2.1 = d ∧ (cuda_mapper_map eM d).2.2 = 1) ∧
    ((cuda_mapper_uninit eU d).1 = d ∧ (cuda_mapper_uninit eU d).2 = 1) := by
  obtain ⟨hIf, hIp⟩ := hI
  refine ⟨?_, ?_, ?_⟩
  · simp [cuda_mapper_init, hIf, hIp]
  · simp [cuda_mapper_map, hM]
  · simp [cuda_mapper_uninit, hU]

/-- A per-plane environment where every `cuda_ebuf_init` step succeeds. -/
def allOkEbuf : EbufEnv :=
  { get_external_info_ok := true
    import_mem_ok := true
    bytes_per_comp := 1
    mma_ok := true
    level_ok := true
    create_signal_ok := true
    import_signal_ok := true
    create_wait_ok := true
    import_wait_ok := true }

/-- Concrete OpenGL-backend environment for the C7 witness. -/
def c7InitEnv : CuMapperInitEnv :=
  { fmt_ok := true
    push_ok := true
    num_planes := 2
    is_gl := true
    is_vk := false
    tex_create_ok := fun _ => true
    gl_register_ok := fun _ => true
    gl_map_ok := fun _ => true
    gl_getarray_ok := fun _ => true
    gl_unmap_ok := fun _ => true
    ebuf := fun _ => allOkEbuf }

/-- Concrete Vulkan-backend environment for the C7 witness. -/
def c7MapEnv : CuMapperMapEnv :=
  { push_ok := true
    num_planes := 2
    is_vk := true
    hold_ok := fun _ => true
    waitsem_ok := fun _ => true
    memcpy_ok := fun _ => true
    signalsem_ok := fun _ => true }

/-- Concrete environment for the C7 witness, uninit side. -/
def c7UninitEnv : CuMapperUninitEnv := { push_ok := true }

/-- Witness for C7 at concrete environments and stack depth 3. -/
theorem cuda_mapper_ctx_stack_balanced_witness :
    ((cuda_mapper_init c7InitEnv 3).2.1 = 3 ∧ (cuda_mapper_init c7InitEnv 3).2.2 = 1) ∧
    ((cuda_mapper_map c7MapEnv 3).2.1 = 3 ∧ (cuda_mapper_map c7MapEnv 3).2.2 = 1) ∧
    ((cuda_mapper_uninit c7UninitEnv 3).1 = 3 ∧ (cuda_mapper_uninit c7UninitEnv 3).2 = 1) :=
  cuda_mapper_ctx_stack_balanced c7InitEnv c7MapEnv c7UninitEnv 3 ⟨rfl, rfl⟩ rfl rfl

/-- A plane environment whose very first step
(`ra_vk_tex_get_external_info`) fails, so `cuda_ebuf_init` returns false. -/
def c8Ebuf : EbufEnv :=
  { get_external_info_ok := false
    import_mem_ok := true
    bytes_per_comp := 1
    mma_ok := true
    level_ok := true
    create_signal_ok := true
    import_signal_ok := true
    create_wait_ok := true
    import_wait_ok := true }

/-- Vulkan-backend `mapper_init` environment with a single plane whose
`cuda_ebuf_init` fails. -/
def c8Env : CuMapperInitEnv :=
  { fmt_ok := true
    push_ok := true
    num_planes := 1
    is_gl := false
    is_vk := true
    tex_create_ok := fun _ => true
    gl_register_ok := fun _ => true
    gl_map_ok := fun _ => true
    gl_getarray_ok := fun _ => true
    gl_unmap_ok := fun _ => true
    ebuf := fun _ => c8Ebuf }

/-- C8: `cuda_ebuf_init` fails for plane 0 (returns false), yet
`mapper_init` returns 0 — success — because the C bool is converted to
the int 0 and the `if (ret < 0)` test never fires.  The claimed
propagation of the failure as a negative return value does not happen. -/
theorem cuda_mapper_init_swallows_ebuf_failure :
    cuda_ebuf_init (c8Env.ebuf 0) = false ∧
    (cuda_mapper_init c8Env 0).1 = 0 := by decide

end CudaHwdec

namespace VaapiHwdec

/-! ### Theorems about the VA-API interop driver -/

/-- An environment where everything needed by `init` works and the
backend is OpenGL. -/
def c5GlEnv : VaInitEnv :=
  { is_gl := true
    is_pl := false
    display_ok := true
    va_init_ok := true
    av_device_ref_ok := true
    probing := false
    emulated := false
    formats_ok := true }

/-- The same working environment on a libplacebo/Vulkan backend. -/
def c5VkEnv : VaInitEnv :=
  { is_gl := false
    is_pl := true
    display_ok := true
    va_init_ok := true
    av_device_ref_ok := true
    probing := false
    emulated := false
    formats_ok := true }

/-- C5 counterexample: with every external call succeeding, `init` fails
for the OpenGL backend — the first statement of `init` returns -1 when
`ra_is_gl(hw->ra)` — while the identical environment on a Vulkan backend
initializes successfully.  So init does fail merely because the backend
is OpenGL. -/
theorem vaapi_init_gl_counterexample :
    vaapi_init c5GlEnv ≠ 0 ∧ vaapi_init c5VkEnv = 0 := by decide

/-- C5 (amended): `init` of the VA-API interop driver returns -1
unconditionally when the rendering backend is OpenGL; it can succeed only
on a non-GL (libplacebo/Vulkan) backend, where it returns 0 whenever
display creation, VA initialization, the libavutil device reference and
format probing all succeed. -/
theorem vaapi_init_gl_fails (e : VaInitEnv) :
    (e.is_gl = true → vaapi_init e = -1) ∧
    (e.is_gl = false → e.display_ok = true → e.va_init_ok = true →
      e.av_device_ref_ok = true → (e.probing && e.emulated) = false →
      e.formats_ok = true → vaapi_init e = 0) := by
  constructor
  · intro h
    simp [vaapi_init, h]
  · intro h1 h2 h3 h4 h5 h6
    simp [vaapi_init, h1, h2, h3, h4, h5, h6]

/-- Witness for the amended C5 theorem at the two concrete environments. -/
theorem vaapi_init_gl_fails_witness :
    vaapi_init c5GlEnv = -1 ∧ vaapi_init c5VkEnv = 0 :=
  ⟨(vaapi_init_gl_fails c5GlEnv).1 rfl,
   (vaapi_init_gl_fails c5VkEnv).2 rfl rfl rfl rfl rfl rfl⟩

/-- `mapper_unmap` always leaves the four memory and texture slots clean. -/
theorem vaCleanState_unmap (s : VaMapState) : vaCleanState (va_mapper_unmap s) :=
  ⟨rfl, rfl, rfl, rfl, rfl, rfl, rfl, rfl⟩

/-- C6: whenever the VA-API `mapper_map` does not succeed, it has returned
-1 through the `error:` path, which invokes `mapper_unmap`; the resulting
mapper state holds no imported memory object and no texture in any of the
four slots. -/
theorem va_mapper_map_failure_unmaps (e : VaMapEnv)
    (h : (va_mapper_map e).1 ≠ 0) :
    (va_mapper_map e).1 = -1 ∧ vaCleanState (va_mapper_map e).2 := by
  cases h1 : e.export_ok with
  | false =>
    have hm : va_mapper_map e = (-1, va_mapper_unmap vaEmptyState) := by
      simp [va_mapper_map, h1]
    rw [hm]
    exact ⟨rfl, vaCleanState_unmap _⟩
  | true =>
  cases h2 : e.fmt_ok with
  | false =>
    have hm : va_mapper_map e = (-1, va_mapper_unmap vaEmptyState) := by
      simp [va_mapper_map, h1, h2]
    rw [hm]
    exact ⟨rfl, vaCleanState_unmap _⟩
  | true =>
  cases h3 : (va_import_objects e 0 e.num_objects vaEmptyState).1 with
  | false =>
    have hm : va_mapper_map e =
        (-1, va_mapper_unmap (va_import_objects e 0 e.num_objects vaEmptyState).2) := by
      simp [va_mapper_map, h1, h2, h3]
    rw [hm]
    exact ⟨rfl, vaCleanState_unmap _⟩
  | true =>
  cases h4 : (va_import_layers e 0 e.num_layers
      (va_import_objects e 0 e.num_objects vaEmptyState).2).1 with
  | false =>
    have hm : va_mapper_map e =
        (-1, va_mapper_unmap (va_import_layers e 0 e.num_layers
          (va_import_objects e 0 e.num_objects vaEmptyState).2).2) := by
      simp [va_mapper_map, h1, h2, h3, h4]
    rw [hm]
    exact ⟨rfl, vaCleanState_unmap _⟩
  | true =>
    exfalso
    apply h
    cases h5 : e.fourcc_yv12 with
    | false => simp [va_mapper_map, h1, h2, h3, h4, h5]
    | true => simp [va_mapper_map, h1, h2, h3, h4, h5]

/-- Environment whose surface export fails immediately. -/
def c6Env : VaMapEnv :=
  { export_ok := false
    fmt_ok := true
    num_objects := 0
    import_ok := fun _ => true
    num_layers := 0
    layer_num_planes := fun _ => 1
    layer_object_index := fun n => n
    tex_import_ok := fun _ => true
    wrap_ok := fun _ => true
    fourcc_yv12 := false }

/-- Witness for C6 at a concrete failing map. -/
theorem va_mapper_map_failure_unmaps_witness :
    (va_mapper_map c6Env).1 = -1 ∧ vaCleanState (va_mapper_map c6Env).2 :=
  va_mapper_map_failure_unmaps c6Env (by decide)

/-- Postcondition of the layer loop when it completes all `fuel`
iterations: slots outside the processed range are untouched, and every
processed slot `m` holds the texture imported from layer `m`'s object,
with that layer having had at most one plane. -/
theorem va_import_layers_spec (e : VaMapEnv) :
    ∀ fuel n s s', va_import_layers e n fuel s = (true, s') →
      (∀ m, m < n ∨ n + fuel ≤ m → s'.tex m = s.tex m) ∧
      (∀ m, n ≤ m → m < n + fuel →
        s'.tex m = some (e.layer_object_index m) ∧ e.layer_num_planes m ≤ 1) := by
  intro fuel
  induction fuel with
  | zero =>
    intro n s s' h
    have h2 : s = s' := congrArg Prod.snd h
    subst h2
    exact ⟨fun m _ => rfl, fun m hm1 hm2 => absurd hm2 (by omega)⟩
  | succ fuel ih =>
    intro n s s' h
    simp only [va_import_layers] at h
    by_cases hp : e.layer_num_planes n > 1
    · rw [if_pos hp] at h
      simp at h
    · rw [if_neg hp] at h
      by_cases ht : e.tex_import_ok n = false
      · rw [if_pos ht] at h
        simp at h
      · rw [if_neg ht] at h
        by_cases hw : e.wrap_ok n = false
        · rw [if_pos hw] at h
          simp at h
        · rw [if_neg hw] at h
          obtain ⟨hout, hin⟩ := ih (n + 1) _ s' h
          constructor
          · intro m hm
            rw [hout m (by omega)]
            have hmn : m ≠ n := by omega
            simp [hmn]
          · intro m hm1 hm2
            by_cases hmn : m = n
            · subst hmn
              refine ⟨?_, by omega⟩
              rw [hout m (by omega)]
              simp
            · exact hin m (by omega) (by omega)

/-- C9 (amended): after a successful VA-API `mapper_map`, every layer
index `n` below the descriptor's layer count has a non-null texture in
`mapper->tex[n]`, imported from layer `vaSwapIdx e n`'s DMA-BUF object —
that is layer `n` itself, except on YV12 surfaces (which export three
layers, hypothesis `hyv`), where the code swaps `tex[1]` and `tex[2]`;
moreover no layer below the count had more than one plane, since such a
layer makes the map fail. -/
theorem va_mapper_map_success_layers (e : VaMapEnv)
    (hyv : e.fourcc_yv12 = true → e.num_layers = 3)
    (hs : (va_mapper_map e).1 = 0) :
    (∀ n, n < e.num_layers →
      (va_mapper_map e).2.tex n = some (e.layer_object_index (vaSwapIdx e n))) ∧
    (∀ n, n < e.num_layers → e.layer_num_planes n ≤ 1) := by
  cases h1 : e.export_ok with
  | false => simp [va_mapper_map, h1] at hs
  | true =>
  cases h2 : e.fmt_ok with
  | false => simp [va_mapper_map, h1, h2] at hs
  | true =>
  cases h3 : (va_import_objects e 0 e.num_objects vaEmptyState).1 with
  | false => simp [va_mapper_map, h1, h2, h3] at hs
  | true =>
  cases h4 : (va_import_layers e 0 e.num_layers
      (va_import_objects e 0 e.num_objects vaEmptyState).2).1 with
  | false => simp [va_mapper_map, h1, h2, h3, h4] at hs
  | true =>
    have hpair : va_import_layers e 0 e.num_layers
        (va_import_objects e 0 e.num_objects vaEmptyState).2 =
        (true, (va_import_layers e 0 e.num_layers
          (va_import_objects e 0 e.num_objects vaEmptyState).2).2) := by
      rw [← h4]
    obtain ⟨hout, hin⟩ := va_import_layers_spec e e.num_layers 0 _ _ hpair
    refine ⟨?_, fun n hn => (hin n (by omega) (by omega)).2⟩
    intro n hn
    cases h5 : e.fourcc_yv12 with
    | false =>
      have hvm : (va_mapper_map e).2.tex n =
          ((va_import_layers e 0 e.num_layers
            (va_import_objects e 0 e.num_objects vaEmptyState).2).2).tex n := by
        simp [va_mapper_map, h1, h2, h3, h4, h5]
      rw [hvm, (hin n (by omega) (by omega)).1]
      simp [vaSwapIdx, h5]
    | true =>
      have h3l : e.num_layers = 3 := hyv h5
      rw [h3l] at hn
      have e0 := (hin 0 (by omega) (by omega)).1
      have e1 := (hin 1 (by omega) (by omega)).1
      have e2 := (hin 2 (by omega) (by omega)).1
      interval_cases n <;>
        simp [va_mapper_map, h1, h2, h3, h4, h5, vaSwapIdx, e0, e1, e2]

/-- A successful YV12 map with three layers, each on its own DMA-BUF
object. -/
def c9Env : VaMapEnv :=
  { export_ok := true
    fmt_ok := true
    num_objects := 3
    import_ok := fun _ => true
    num_layers := 3
    layer_num_planes := fun _ => 1
    layer_object_index := fun n => n
    tex_import_ok := fun _ => true
    wrap_ok := fun _ => true
    fourcc_yv12 := true }

/-- C9 counterexample: on a successful YV12 map, `mapper->tex[1]` does not
hold the texture imported from layer 1's DMA-BUF object — it holds layer
2's, because of the `MPSWAP` for `VA_FOURCC_YV12` — refuting the claim as
stated. -/
theorem va_mapper_map_yv12_swap_counterexample :
    (va_mapper_map c9Env).1 = 0 ∧
    (va_mapper_map c9Env).2.tex 1 ≠ some (c9Env.layer_object_index 1) ∧
    (va_mapper_map c9Env).2.tex 1 = some (c9Env.layer_object_index 2) := by decide

/-- A successful two-layer NV12-style map (not YV12). -/
def c9WitEnv : VaMapEnv :=
  { export_ok := true
    fmt_ok := true
    num_objects := 2
    import_ok := fun _ => true
    num_layers := 2
    layer_num_planes := fun _ => 1
    layer_object_index := fun n => n
    tex_import_ok := fun _ => true
    wrap_ok := fun _ => true
    fourcc_yv12 := false }

/-- Witness for the amended C9 theorem at a concrete successful map. -/
theorem va_mapper_map_success_layers_witness :
    (va_mapper_map c9WitEnv).2.tex 1 =
      some (c9WitEnv.layer_object_index (vaSwapIdx c9WitEnv 1)) ∧
    c9WitEnv.layer_num_planes 1 ≤ 1 :=
  ⟨(va_mapper_map_success_layers c9WitEnv (fun h => absurd h (by decide))
      (by decide)).1 1 (by decide),
   (va_mapper_map_success_layers c9WitEnv (fun h => absurd h (by decide))
      (by decide)).2 1 (by decide)⟩

end VaapiHwdec
